import Mathlib

/-!
Shallow embedding of the watch-debounce-launch core of `app.py`
(Video_auto_play).

The embedding models:
 - `VideoHandler` (the watchdog event handler): fields `delay`,
   `is_paused`, `is_running`; method `on_created`, `play_video`, `stop`.
 - `Application` GUI-level state that the core logic touches:
   `hot_folder`, `delay`, `video_count`, `is_watching`, the activity log,
   and the observer/handler lifecycle
   (`start_watching`, `stop_watching`, `restart_observer`,
   `toggle_watching`, `update_settings`, `browse_folder`, `clear_log`,
   `add_video_to_list`, `safe_exit`, `instance_check`).

Timing is modelled operationally: `on_created` in the source performs its
guard check, appends the detection entry, then blocks in
`time.sleep(self.delay)` and finally calls `self.play_video` with no
further check of any flag.  The embedding splits this at the sleep:
`on_created` performs the guard, the detection append and records the
path as a pending settle sleep; `settle_elapsed` models the sleep
finishing, after which the source launches the file unconditionally.
Between the two, other threads (the Tk main loop) may run
`toggle_watching`, `stop_watching`, `update_settings`, ... — exactly the
interleavings the temporal claims quantify over.

Python floats for the delay are modelled as rationals; machine I/O
(message boxes, `datetime.now()`, `save_config`) is modelled as explicit
inputs/outputs where a claim depends on it.
-/

/-- FileEvent as delivered by watchdog to `on_created`: the path, whether
the event is for a directory, plus the `datetime.now()` timestamp string
the handler observes at dispatch time (an ambient input of the source,
attached to the event here). -/
structure FileEvent where
  src_path : String
  is_directory : Bool
  det_time : String
deriving DecidableEq, Repr

/-- Model of Python `str.startswith`, on the character sequence. -/
def str_startswith (s pre : String) : Bool :=
  decide (s.toList.take pre.toList.length = pre.toList)

/-- Model of Python `str.endswith`, on the character sequence. -/
def str_endswith (s suf : String) : Bool :=
  decide (s.toList.drop (s.toList.length - suf.toList.length) = suf.toList)

/-- Model of Python `str.lower`, character by character. -/
def str_lower (s : String) : String :=
  String.mk (s.toList.map Char.toLower)

/-- Extension filter from `on_created`:
`event.src_path.lower().endswith(('.mp4', '.avi', '.mkv'))`. -/
def hasAllowedExt (p : String) : Bool :=
  let l := str_lower p
  str_endswith l ".mp4" || str_endswith l ".avi" || str_endswith l ".mkv"

/-- Model of `os.path.basename`: the component after the last path
separator. -/
def basename (p : String) : String :=
  String.mk (p.toList.foldl (fun acc c => if c = '/' || c = '\\' then [] else acc ++ [c]) [])

/-- Mutable state of a `VideoHandler` instance (`__init__`): `delay`,
`is_paused`, `is_running`. -/
structure VideoHandlerState where
  delay : Rat
  is_paused : Bool
  is_running : Bool
deriving DecidableEq, Repr

/-- Guard of `on_created`:
`not self.is_paused and not event.is_directory and self.is_running and
event.src_path.lower().endswith(('.mp4', '.avi', '.mkv'))`. -/
def acceptsEvent (h : VideoHandlerState) (e : FileEvent) : Bool :=
  !h.is_paused && !e.is_directory && h.is_running && hasAllowedExt e.src_path

/-- Application-level state reached by the core operations.
`handler` is the current `VideoHandler`; `sessionGen` counts how many
times `start_watching` has constructed a fresh `VideoHandler` instance
(it identifies the instance: it changes exactly when a new handler object
is created); `hasObserver` is `self.observer is not None`; `delay` is
`Application.delay`; `pending` is the multiset of paths whose
`time.sleep(self.delay)` inside `on_created` is currently in progress;
`log` is the text of the activity-log widget as a list of lines;
`launched` records every path passed to `play_video`, in order. -/
structure AppState where
  handler : VideoHandlerState
  hasObserver : Bool
  sessionGen : Nat
  is_watching : Bool
  delay : Rat
  hot_folder : String
  pending : List String
  log : List String
  video_count : Nat
  launched : List String
deriving DecidableEq, Repr

/-- Application.add_video_to_list: append the line to the log; increment
`video_count` unless the message starts with "Monitoring". -/
def add_video_to_list (s : AppState) (video_info : String) : AppState :=
  { s with
    log := s.log ++ [video_info]
    video_count :=
      if str_startswith video_info "Monitoring" then s.video_count else s.video_count + 1 }

/-- First half of `VideoHandler.on_created`, up to the sleep: if the guard
accepts the event, append the detection entry via the callback
(`add_video_to_list`) and enter the `time.sleep(self.delay)` suspension
(recorded in `pending`); otherwise do nothing. -/
def on_created (s : AppState) (e : FileEvent) : AppState :=
  if acceptsEvent s.handler e then
    let s1 := add_video_to_list s (e.det_time ++ " - " ++ basename e.src_path)
    { s1 with pending := s1.pending ++ [e.src_path] }
  else s

/-- Second half of `VideoHandler.on_created`: the `time.sleep(self.delay)`
for path `p` finishes and the source immediately runs
`self.play_video(event.src_path)` — no flag is re-checked after the
sleep. -/
def settle_elapsed (s : AppState) (p : String) : AppState :=
  if p ∈ s.pending then
    { s with pending := s.pending.erase p, launched := s.launched ++ [p] }
  else s

/-- Application.toggle_watching: flip `is_watching`; when now watching,
clear the handler's pause flag and log "Monitoring resumed"; otherwise
set the pause flag and log "Monitoring paused". -/
def toggle_watching (s : AppState) : AppState :=
  let w := !s.is_watching
  if w then
    add_video_to_list
      { s with is_watching := w, handler := { s.handler with is_paused := false } }
      "Monitoring resumed"
  else
    add_video_to_list
      { s with is_watching := w, handler := { s.handler with is_paused := true } }
      "Monitoring paused"

/-- Application.clear_log: empty the log widget and reset the counter. -/
def clear_log (s : AppState) : AppState :=
  { s with log := [], video_count := 0 }

/-- Outcome of `float(self.delay_entry.get())`: either a parsed numeric
value or a `ValueError`. -/
inductive ParseResult where
  | num : Rat → ParseResult
  | err : ParseResult
deriving DecidableEq, Repr

/-- Application.update_settings: parse the entry text; on `ValueError`
(unparsable or negative, the latter raised explicitly) show an error box
and change nothing; on success assign both `self.delay` and
`self.event_handler.delay` in place.  The returned Bool is whether the
error box was shown. -/
def update_settings (s : AppState) (input : ParseResult) : AppState × Bool :=
  match input with
  | ParseResult.err => (s, true)
  | ParseResult.num q =>
      if q < 0 then (s, true)
      else ({ s with delay := q, handler := { s.handler with delay := q } }, false)

/-- Application.stop_watching: if an observer exists, run
`self.event_handler.stop()` (clearing `is_running`), stop and join the
observer (with `timeout=5`) and drop both references.  Sleeps already in
progress inside `on_created` are threads blocked in `time.sleep`; nothing
here interrupts them, so `pending` is untouched. -/
def stop_watching (s : AppState) : AppState :=
  if s.hasObserver then
    { s with handler := { s.handler with is_running := false }, hasObserver := false }
  else s

/-- Application.start_watching: stop any existing observer, then build a
fresh `VideoHandler(self.delay, self.add_video_to_list)` (a new instance:
`sessionGen` increments) and a fresh observer. -/
def start_watching (s : AppState) : AppState :=
  let s1 := if s.hasObserver then stop_watching s else s
  { s1 with
    handler := { delay := s1.delay, is_paused := false, is_running := true }
    hasObserver := true
    sessionGen := s1.sessionGen + 1 }

/-- Application.restart_observer: stop and join the old observer, then
`start_watching` (which itself stops the still-referenced observer and
builds a fresh handler). -/
def restart_observer (s : AppState) : AppState :=
  start_watching s

/-- Application.browse_folder: if the dialog returned a folder, store it,
persist the config and restart the observer; an empty selection does
nothing. -/
def browse_folder (s : AppState) (selection : Option String) : AppState :=
  match selection with
  | none => s
  | some f => restart_observer { s with hot_folder := f }

/-- Application state right after the field initialisation in `__init__`
(`self.delay = 5`, `self.video_count = 0`, `self.is_watching = True`,
`self.observer = None`), before `start_watching` runs.  The handler slot
is a placeholder for Python's `None` (never consulted while
`hasObserver` is false and `is_running` is false). -/
def initialAppBase (folder : String) : AppState :=
  { handler := { delay := 5, is_paused := false, is_running := false }
    hasObserver := false
    sessionGen := 0
    is_watching := true
    delay := 5
    hot_folder := folder
    pending := []
    log := []
    video_count := 0
    launched := [] }

/-- Application.__init__ ends by calling `start_watching`. -/
def initApp (folder : String) : AppState :=
  start_watching (initialAppBase folder)

/-- One operation of the application, as invoked by the observer thread
(`fileCreated`, `settleElapsed`) or the Tk main loop (the rest). -/
inductive AppOp where
  | fileCreated : FileEvent → AppOp
  | settleElapsed : String → AppOp
  | toggleWatching : AppOp
  | clearLog : AppOp
  | updateSettings : ParseResult → AppOp
  | browseFolder : Option String → AppOp
  | stopWatching : AppOp
  | startWatching : AppOp
deriving DecidableEq, Repr

/-- Interpretation of one operation on the application state. -/
def applyOp (s : AppState) : AppOp → AppState
  | AppOp.fileCreated e => on_created s e
  | AppOp.settleElapsed p => settle_elapsed s p
  | AppOp.toggleWatching => toggle_watching s
  | AppOp.clearLog => clear_log s
  | AppOp.updateSettings inp => (update_settings s inp).1
  | AppOp.browseFolder sel => browse_folder s sel
  | AppOp.stopWatching => stop_watching s
  | AppOp.startWatching => start_watching s

/-- Number of log lines that are not status messages (do not start with
"Monitoring"); `video_count` is supposed to track this. -/
def countNonStatus (l : List String) : Nat :=
  (l.filter (fun m => !(str_startswith m "Monitoring"))).length

/-- Outcome of the `os.startfile(video_path)` call in `play_video`:
success, `AttributeError` (the function does not exist on this platform),
or an `OSError` (for example, no application is associated with the file
type). -/
inductive StartfileOutcome where
  | ok : StartfileOutcome
  | attributeError : StartfileOutcome
  | osError : StartfileOutcome
deriving DecidableEq, Repr

/-- VideoHandler.play_video: try `os.startfile`; only `AttributeError` is
caught, in which case `subprocess.call` runs `open`/`xdg-open` and its
exit code `rc` is discarded.  Result: `Except.error ()` when an exception
escapes the method, `Except.ok ()` when it returns normally; the list is
every log entry the method appends (the source appends none). -/
def play_video (sf : StartfileOutcome) (rc : Int) : Except Unit Unit × List String :=
  match sf with
  | StartfileOutcome.ok => (Except.ok (), [])
  | StartfileOutcome.attributeError => (Except.ok (), [])
  | StartfileOutcome.osError => (Except.error (), [])

/-- Which steps of `Application.safe_exit` ran, and the process exit
code. -/
structure ExitResult where
  stopped : Bool
  saved : Bool
  socket_closed : Bool
  destroyed : Bool
  exit_code : Nat
deriving DecidableEq, Repr

/-- Application.safe_exit: one `try` block runs `stop_watching` (which
catches its own exceptions internally and always completes), then
`save_config`, then `self.socket.close()`, then `self.destroy()`, then
`sys.exit(0)`; the single `except Exception` handler prints and calls
`sys.exit(1)`.  The three Booleans say whether `save_config`,
`socket.close` and `destroy` raise. -/
def safe_exit (save_fails close_fails destroy_fails : Bool) : ExitResult :=
  if save_fails then
    { stopped := true, saved := false, socket_closed := false, destroyed := false, exit_code := 1 }
  else if close_fails then
    { stopped := true, saved := true, socket_closed := false, destroyed := false, exit_code := 1 }
  else if destroy_fails then
    { stopped := true, saved := true, socket_closed := true, destroyed := false, exit_code := 1 }
  else
    { stopped := true, saved := true, socket_closed := true, destroyed := true, exit_code := 0 }

/-- Model of `socket.bind(('localhost', port))` against the set of ports
already bound on the machine, with the standard OS semantics: requesting
port 0 asks the kernel for a fresh unused ephemeral port, which succeeds
and returns a port outside `bound`; requesting a specific port fails
exactly when that port is already bound. -/
def bindLocalhost (requested : Nat) (bound : List Nat) : Option Nat :=
  if requested = 0 then some (bound.foldr max 49151 + 1)
  else if requested ∈ bound then none
  else some requested

/-- Application.instance_check: create a socket, `bind(('localhost', 0))`
and listen; on any exception show the "Another instance" error box and
`sys.exit(1)` (`none`).  On success, return the port obtained and the new
set of bound ports on the machine. -/
def instance_check (bound : List Nat) : Option (Nat × List Nat) :=
  match bindLocalhost 0 bound with
  | some p => some (p, p :: bound)
  | none => none

/-- Concrete accepted event used by witnesses: a freshly created mp4. -/
def clipEvent : FileEvent :=
  { src_path := "/watch/clip.mp4", is_directory := false, det_time := "2026-01-01 12:00:00" }

/-- Concrete rejected event: wrong extension. -/
def txtEvent : FileEvent :=
  { src_path := "/watch/notes.txt", is_directory := false, det_time := "2026-01-01 12:00:01" }

/-- Concrete rejected event: a directory (even with a matching suffix). -/
def dirEvent : FileEvent :=
  { src_path := "/watch/sub.mp4", is_directory := true, det_time := "2026-01-01 12:00:02" }

/-! Helper lemmas -/

/-- Appending one line changes `countNonStatus` by one exactly when the
line is not a status message. -/
theorem countNonStatus_append (l : List String) (m : String) :
    countNonStatus (l ++ [m])
      = countNonStatus l + (if str_startswith m "Monitoring" then 0 else 1) := by
  cases hsw : str_startswith m "Monitoring" <;>
    simp [countNonStatus, List.filter_append, hsw]

/-- The `add_video_to_list` callback preserves the counter invariant. -/
theorem add_video_invariant (s : AppState) (m : String)
    (hI : s.video_count = countNonStatus s.log) :
    (add_video_to_list s m).video_count = countNonStatus (add_video_to_list s m).log := by
  cases hsw : str_startswith m "Monitoring" <;>
    simp [add_video_to_list, hsw, countNonStatus_append, hI]

/-- The log and the counter survive `stop_watching` unchanged. -/
theorem stop_watching_log_count (s : AppState) :
    (stop_watching s).log = s.log ∧ (stop_watching s).video_count = s.video_count := by
  by_cases h : s.hasObserver <;> simp [stop_watching, h]

/-- The log and the counter survive `start_watching` unchanged. -/
theorem start_watching_log_count (s : AppState) :
    (start_watching s).log = s.log ∧ (start_watching s).video_count = s.video_count := by
  by_cases h : s.hasObserver <;>
    simp [start_watching, h, stop_watching_log_count]

/-- Every single operation preserves the counter invariant. -/
theorem applyOp_invariant (s : AppState) (op : AppOp)
    (hI : s.video_count = countNonStatus s.log) :
    (applyOp s op).video_count = countNonStatus (applyOp s op).log := by
  cases op with
  | fileCreated e =>
      by_cases ha : acceptsEvent s.handler e = true
      · simpa [applyOp, on_created, ha] using
          add_video_invariant s (e.det_time ++ " - " ++ basename e.src_path) hI
      · simp [applyOp, on_created, ha, hI]
  | settleElapsed p =>
      by_cases hp : p ∈ s.pending <;> simp [applyOp, settle_elapsed, hp, hI]
  | toggleWatching =>
      by_cases hw : s.is_watching = true <;>
        · simp [applyOp, toggle_watching, hw]
          exact add_video_invariant _ _ hI
  | clearLog => simp [applyOp, clear_log, countNonStatus]
  | updateSettings inp =>
      cases inp with
      | err => simpa [applyOp, update_settings] using hI
      | num q =>
          by_cases hq : q < 0 <;> simp [applyOp, update_settings, hq, hI]
  | browseFolder sel =>
      cases sel with
      | none => simpa [applyOp, browse_folder] using hI
      | some f =>
          have h1 := start_watching_log_count ({ s with hot_folder := f })
          simp only [applyOp, browse_folder, restart_observer]
          rw [h1.2, h1.1]
          exact hI
  | stopWatching =>
      have h1 := stop_watching_log_count s
      simp only [applyOp]
      rw [h1.2, h1.1]
      exact hI
  | startWatching =>
      have h1 := start_watching_log_count s
      simp only [applyOp]
      rw [h1.2, h1.1]
      exact hI

/-- The counter invariant is preserved along any operation sequence. -/
theorem foldl_invariant (ops : List AppOp) (s : AppState)
    (hI : s.video_count = countNonStatus s.log) :
    (List.foldl applyOp s ops).video_count
      = countNonStatus (List.foldl applyOp s ops).log := by
  induction ops generalizing s with
  | nil => exact hI
  | cons op rest ih => exact ih _ (applyOp_invariant s op hI)

/-! Claim theorems -/

/-- C10: after every sequence of operations, `video_count` equals the
number of lines appended to the log since the last clear whose text does
not start with "Monitoring"; status appends never increment the counter
and `clear_log` resets the counter together with the log. -/
theorem video_count_matches_log (folder : String) (ops : List AppOp) :
    (List.foldl applyOp (initApp folder) ops).video_count
      = countNonStatus (List.foldl applyOp (initApp folder) ops).log := by
  refine foldl_invariant ops (initApp folder) ?_
  simp [initApp, initialAppBase, start_watching, stop_watching, countNonStatus]

/-- C6: a sequence of FileEvents in which every event is a directory
event or has an extension outside the allowlist leaves the application
state exactly as it was: no log entry, no pending settle (zero
ReadyFile), and no launch. -/
theorem rejected_events_produce_nothing (s : AppState) (evs : List FileEvent)
    (h : ∀ e ∈ evs, e.is_directory = true ∨ hasAllowedExt e.src_path = false) :
    List.foldl on_created s evs = s := by
  induction evs with
  | nil => rfl
  | cons e rest ih =>
      have he := h e (List.mem_cons_self e rest)
      have h1 : on_created s e = s := by
        rcases he with hd | hx
        · simp [on_created, acceptsEvent, hd]
        · simp [on_created, acceptsEvent, hx]
      rw [List.foldl_cons, h1]
      exact ih (fun e2 he2 => h e2 (List.mem_cons_of_mem _ he2))

/-- Witness for C6: a `.txt` file and a directory produce no state change
from the freshly started application. -/
theorem rejected_events_produce_nothing_w :
    List.foldl on_created (initApp "/watch") [txtEvent, dirEvent] = initApp "/watch" :=
  rejected_events_produce_nothing _ _ (by decide)

/-- C7: a negative delay value is rejected by `update_settings`: the
application and handler state are returned unchanged (neither the stored
delay nor the live handler's delay moves) and the error box is shown. -/
theorem negative_delay_rejected_not_applied (s : AppState) (q : Rat) (hq : q < 0) :
    update_settings s (ParseResult.num q) = (s, true) := by
  simp [update_settings, hq]

/-- Witness for C7: updating the delay to -1 on the freshly started
application is rejected and changes nothing. -/
theorem negative_delay_rejected_not_applied_w :
    update_settings (initApp "/watch") (ParseResult.num (-1)) = (initApp "/watch", true) :=
  negative_delay_rejected_not_applied _ _ (by decide)

/-- Counterexample to C2: with monitoring paused, an accepted-type
FileEvent (non-directory, allowlisted mp4) produces NO ActivityLog entry
at all — the state is completely unchanged — contradicting the claim
that it still produces exactly one Detection entry. -/
theorem paused_event_no_detection_cex :
    (toggle_watching (initApp "/watch")).handler.is_paused = true ∧
    on_created (toggle_watching (initApp "/watch")) clipEvent
      = toggle_watching (initApp "/watch") := by decide

/-- C2 as amended: while the handler is paused, any sequence of
FileEvents leaves the state untouched: zero log entries, zero pending
settles and zero Launcher invocations; in particular there is no backlog
for `resume` to replay. -/
theorem paused_events_produce_nothing (s : AppState) (evs : List FileEvent)
    (hp : s.handler.is_paused = true) :
    List.foldl on_created s evs = s := by
  induction evs with
  | nil => rfl
  | cons e rest ih =>
      have h1 : on_created s e = s := by
        simp [on_created, acceptsEvent, hp]
      rw [List.foldl_cons, h1]
      exact ih

/-- Witness for amended C2: from the paused application, an mp4 creation
followed by a txt creation leave the state exactly as it was. -/
theorem paused_events_produce_nothing_w :
    List.foldl on_created (toggle_watching (initApp "/watch")) [clipEvent, txtEvent]
      = toggle_watching (initApp "/watch") :=
  paused_events_produce_nothing _ _ (by decide)

/-- Counterexample to C1: `clip.mp4` is detected (entry logged, settle
sleep entered), then `pause()` runs during the settle sleep
(`is_paused` becomes true), yet when the sleep elapses the file IS
launched — the Launcher is invoked despite the pause, contradicting the
claim that the eventual ReadyFile is discarded. -/
theorem pause_during_settle_cex :
    (toggle_watching (on_created (initApp "/watch") clipEvent)).handler.is_paused = true ∧
    "2026-01-01 12:00:00 - clip.mp4"
      ∈ (toggle_watching (on_created (initApp "/watch") clipEvent)).log ∧
    (settle_elapsed (toggle_watching (on_created (initApp "/watch") clipEvent))
        "/watch/clip.mp4").launched = ["/watch/clip.mp4"] := by decide

/-- C1 as amended: a pause issued while an accepted FileEvent is
suspended in its settle sleep does NOT discard the eventual launch: the
Detection entry recorded at detection time remains in the log, and the
Launcher is still invoked for that file when the delay elapses — the
pause flag is consulted only when a new event arrives, never after the
sleep. -/
theorem pause_during_settle_launch_proceeds (s : AppState) (e : FileEvent)
    (hw : s.is_watching = true) (ha : acceptsEvent s.handler e = true) :
    (e.det_time ++ " - " ++ basename e.src_path)
      ∈ (toggle_watching (on_created s e)).log ∧
    (toggle_watching (on_created s e)).handler.is_paused = true ∧
    (settle_elapsed (toggle_watching (on_created s e)) e.src_path).launched
      = s.launched ++ [e.src_path] := by
  have hmem : e.src_path ∈ s.pending ++ [e.src_path] :=
    List.mem_append_right _ (List.mem_singleton_self _)
  simp [on_created, ha, toggle_watching, add_video_to_list, settle_elapsed, hw, hmem]

/-- Witness for amended C1: the concrete pause-during-settle run on the
fresh application. -/
theorem pause_during_settle_launch_proceeds_w :
    (clipEvent.det_time ++ " - " ++ basename clipEvent.src_path)
      ∈ (toggle_watching (on_created (initApp "/watch") clipEvent)).log ∧
    (toggle_watching (on_created (initApp "/watch") clipEvent)).handler.is_paused = true ∧
    (settle_elapsed (toggle_watching (on_created (initApp "/watch") clipEvent))
        clipEvent.src_path).launched
      = (initApp "/watch").launched ++ [clipEvent.src_path] :=
  pause_during_settle_launch_proceeds _ _ (by decide) (by decide)

/-- Counterexample to C4: `clip.mp4` is accepted and enters its settle
sleep, `stop_watching` then runs to completion, yet when the sleep
elapses the file IS passed to the Launcher — contradicting the claim
that after `stop()` returns no pending settle suspension invokes the
Launcher. -/
theorem stop_pending_still_launches_cex :
    (stop_watching (on_created (initApp "/watch") clipEvent)).hasObserver = false ∧
    (stop_watching (on_created (initApp "/watch") clipEvent)).handler.is_running = false ∧
    (settle_elapsed (stop_watching (on_created (initApp "/watch") clipEvent))
        "/watch/clip.mp4").launched = ["/watch/clip.mp4"] := by decide

/-- C4 as amended: `stop_watching` only clears the handler's running
flag (gating events that arrive afterwards) and drops the observer; a
file whose settle sleep is already in progress when `stop_watching` runs
is still launched when its sleep elapses (the sleeping thread survives
the `join(timeout=5)` whenever the remaining delay exceeds it). -/
theorem stop_does_not_cancel_inflight_settle (s : AppState) (p : String)
    (hp : p ∈ s.pending) :
    (settle_elapsed (stop_watching s) p).launched = s.launched ++ [p] := by
  by_cases h : s.hasObserver <;>
    simp [stop_watching, settle_elapsed, h, hp]

/-- Witness for amended C4: the concrete stop-during-settle run on the
fresh application. -/
theorem stop_does_not_cancel_inflight_settle_w :
    (settle_elapsed (stop_watching (on_created (initApp "/watch") clipEvent))
        "/watch/clip.mp4").launched
      = (on_created (initApp "/watch") clipEvent).launched ++ ["/watch/clip.mp4"] :=
  stop_does_not_cancel_inflight_settle _ _ (by decide)

/-- Counterexample to C5: on the fresh application (session generation 1,
handler delay 5, running), `update_settings` with 2 leaves the session
generation unchanged — no stop, no fresh `VideoHandler` — while the live
running handler's delay becomes 2 in place: the in-flight session DOES
observe a changed delay. -/
theorem delay_update_mutates_live_handler_cex :
    (initApp "/watch").handler.delay = 5 ∧
    (initApp "/watch").handler.is_running = true ∧
    (update_settings (initApp "/watch") (ParseResult.num 2)).1.sessionGen
      = (initApp "/watch").sessionGen ∧
    (update_settings (initApp "/watch") (ParseResult.num 2)).1.handler.delay = 2 ∧
    (update_settings (initApp "/watch") (ParseResult.num 2)).1.handler.is_running = true := by
  decide

/-- C5 as amended: only DIRECTORY reconfiguration is done by stopping the
old session and starting a fresh `VideoHandler` instance
(`browse_folder` bumps the session generation); a delay change
(`update_settings` with a non-negative value) keeps the same handler
instance and mutates its `delay` field in place, so the running session
observes the new delay. -/
theorem reconfig_folder_fresh_delay_in_place (s : AppState) (f : String) (q : Rat)
    (hq : 0 ≤ q) :
    (browse_folder s (some f)).sessionGen = s.sessionGen + 1 ∧
    (browse_folder s (some f)).hot_folder = f ∧
    (browse_folder s (some f)).handler.is_running = true ∧
    (update_settings s (ParseResult.num q)).1.sessionGen = s.sessionGen ∧
    (update_settings s (ParseResult.num q)).1.handler.delay = q ∧
    (update_settings s (ParseResult.num q)).1.handler.is_running
      = s.handler.is_running := by
  have hq2 : ¬(q < 0) := not_lt.mpr hq
  by_cases h : s.hasObserver <;>
    simp [browse_folder, restart_observer, start_watching, stop_watching,
      update_settings, h, hq2]

/-- Witness for amended C5: concrete folder change and delay change on
the fresh application. -/
theorem reconfig_folder_fresh_delay_in_place_w :
    (browse_folder (initApp "/watch") (some "/new")).sessionGen
      = (initApp "/watch").sessionGen + 1 ∧
    (browse_folder (initApp "/watch") (some "/new")).hot_folder = "/new" ∧
    (browse_folder (initApp "/watch") (some "/new")).handler.is_running = true ∧
    (update_settings (initApp "/watch") (ParseResult.num 2)).1.sessionGen
      = (initApp "/watch").sessionGen ∧
    (update_settings (initApp "/watch") (ParseResult.num 2)).1.handler.delay = 2 ∧
    (update_settings (initApp "/watch") (ParseResult.num 2)).1.handler.is_running
      = (initApp "/watch").handler.is_running :=
  reconfig_folder_fresh_delay_in_place _ _ _ (by decide)

/-- C3 (the code bug): `instance_check` binds `('localhost', 0)` — port 0
asks the OS for a fresh ephemeral port, which succeeds no matter what is
already bound.  Hence a second instance started while the first holds
its socket ALSO succeeds: the check never raises, never exits, and at
most-one-live-claim fails.  (The method's own docstring and error
message promise the opposite.) -/
theorem instance_check_admits_second_instance (bound : List Nat) :
    (Option.bind (instance_check bound) (fun st => instance_check st.2)).isSome
      = true := by
  simp [instance_check, bindLocalhost]

/-- Counterexample to C8: the fallback handler invocation exits non-zero
(`subprocess.call` returns 1), yet `play_video` returns normally and
appends nothing to the log — the failure is neither logged nor surfaced;
and an `OSError` from `os.startfile` (no resolvable handler) is not
caught at all and escapes the Launcher boundary. -/
theorem launch_failure_unlogged_cex :
    play_video StartfileOutcome.attributeError 1 = (Except.ok (), []) ∧
    play_video StartfileOutcome.osError 0 = (Except.error (), []) :=
  ⟨rfl, rfl⟩

/-- C8 as amended: `play_video` catches only `AttributeError` (a missing
`os.startfile`), falling back to `open`/`xdg-open` whose exit code is
discarded — a non-zero exit is silently ignored, NOT logged (the session
continues only by indifference); an `OSError` from `os.startfile` is not
caught and propagates past the Launcher boundary. -/
theorem launch_failure_handling (rc : Int) :
    play_video StartfileOutcome.ok rc = (Except.ok (), []) ∧
    play_video StartfileOutcome.attributeError rc = (Except.ok (), []) ∧
    play_video StartfileOutcome.osError rc = (Except.error (), []) :=
  ⟨rfl, rfl, rfl⟩

/-- Counterexample to C9: when `save_config` raises during `safe_exit`,
the socket holding the instance lock is never closed and the window is
never destroyed — the later steps are skipped, contradicting the claim
that all three steps execute even if an earlier one fails. -/
theorem safe_exit_skips_after_failure_cex :
    safe_exit true false false
      = { stopped := true, saved := false, socket_closed := false,
          destroyed := false, exit_code := 1 } := by decide

/-- C9 as amended: `safe_exit` wraps the WHOLE sequence in a single
try/except: `stop_watching` (itself internally wrapped) always completes,
but a failure in `save_config` skips the socket close and the destroy, a
failure in the socket close skips the destroy, and in every failure case
the process exits with code 1; only when nothing fails do all steps
execute (exit code 0). -/
theorem safe_exit_single_wrapper (c d : Bool) :
    safe_exit true c d
      = { stopped := true, saved := false, socket_closed := false,
          destroyed := false, exit_code := 1 } ∧
    safe_exit false true d
      = { stopped := true, saved := true, socket_closed := false,
          destroyed := false, exit_code := 1 } ∧
    safe_exit false false true
      = { stopped := true, saved := true, socket_closed := true,
          destroyed := false, exit_code := 1 } ∧
    safe_exit false false false
      = { stopped := true, saved := true, socket_closed := true,
          destroyed := true, exit_code := 0 } :=
  ⟨rfl, rfl, rfl, rfl⟩
